import Mathlib

/-!
Shallow embedding of the 531StrengthTracker training-weight engine.

Weights are modelled as exact rationals (`ℚ`).  JavaScript `toFixed(1)` /
`toFixed(0)` display rounding is modelled by rounding half away from zero
on the decimal grid, which agrees with the JS behaviour on the nonnegative
weights the app manipulates.
-/

/-- The constant `LBS_TO_KG_FACTOR = 0.453592` shared by
`components/EditLiftModal.js` and the `CalculateWeights` component. -/
def LBS_TO_KG_FACTOR : ℚ := 453592 / 1000000

/-- The `WorkSet` class of `src/models/liftModels.js`: three set weights and
three paired rep counts. -/
structure WorkSet where
  repLift1 : ℚ
  repLift2 : ℚ
  repLift3 : ℚ
  reps1 : ℕ
  reps2 : ℕ
  reps3 : ℕ
  deriving DecidableEq, Repr

/-- The `calculatedWarmUp` object literal built inside
`calculateTrainingWeights`: three warm-up weights with their rep counts. -/
structure WarmUp where
  rpe40 : ℚ
  rpe50 : ℚ
  rpe60 : ℚ
  reps40 : ℕ
  reps50 : ℕ
  reps60 : ℕ
  deriving DecidableEq, Repr

/-- The record returned by `calculateTrainingWeights`: an optional warm-up
block (null for Deload) and an optional `WorkSet`. -/
structure TrainingWeights where
  warmUp : Option WarmUp
  workingSets : Option WorkSet
  deriving DecidableEq, Repr

/-- Embedding of `calculateTrainingWeights(maxWeight, cycle)` from the
`CalculateWeights` component.  The JS `switch` with `break`s is a first-match
chain of string comparisons; every branch (including `default`) assigns
non-null percentage and rep arrays, mirrored here by `Option` values. -/
def calculateTrainingWeights (maxWeight : ℚ) (cycle : String) : TrainingWeights :=
  let calculateWeight : ℚ → ℚ := fun percentage => maxWeight * (percentage / 100)
  let warmUpPercentages : ℚ × ℚ × ℚ := (40, 50, 60)
  let warmUpReps : ℕ × ℕ × ℕ := (5, 5, 3)
  let calculatedWarmUp : WarmUp :=
    { rpe40 := calculateWeight warmUpPercentages.1
      rpe50 := calculateWeight warmUpPercentages.2.1
      rpe60 := calculateWeight warmUpPercentages.2.2
      reps40 := warmUpReps.1
      reps50 := warmUpReps.2.1
      reps60 := warmUpReps.2.2 }
  let workingSetPercentages : Option (ℚ × ℚ × ℚ) :=
    if cycle = "Deload" then some (40, 50, 60)
    else if cycle = "5/5/5" then some (65, 75, 85)
    else if cycle = "3/3/3" then some (70, 80, 90)
    else if cycle = "5/3/1" then some (75, 85, 95)
    else some (75, 85, 95)
  let workingSetReps : Option (ℕ × ℕ × ℕ) :=
    if cycle = "Deload" then some (5, 5, 3)
    else if cycle = "5/5/5" then some (5, 5, 5)
    else if cycle = "3/3/3" then some (3, 3, 3)
    else if cycle = "5/3/1" then some (5, 3, 1)
    else some (5, 3, 1)
  let calculatedWorkingSets : Option WorkSet :=
    match workingSetPercentages, workingSetReps with
    | some p, some r =>
        some ⟨calculateWeight p.1, calculateWeight p.2.1, calculateWeight p.2.2,
              r.1, r.2.1, r.2.2⟩
    | _, _ => none
  { warmUp := if cycle = "Deload" then none else some calculatedWarmUp
    workingSets := calculatedWorkingSets }

/-- JavaScript `x.toFixed(1)` re-parsed as a number: rounding to one decimal
place.  `round` on `ℚ` rounds half up, which matches the JS behaviour on the
nonnegative weights the modal manipulates. -/
def toFixed1 (q : ℚ) : ℚ := (round (q * 10) : ℤ) / 10

/-- JavaScript `x.toFixed(0)` re-parsed as an integer: rounding half away
from zero. -/
def toFixed0 (q : ℚ) : ℤ := if q < 0 then -round (-q) else round q

/-- Embedding of `convertInputToLbs(weight, unit)` from
`components/EditLiftModal.js`.  The `parseFloat` result is modelled as
`Option ℚ`, `none` standing for a string that does not parse as a number
(NaN), which the code maps to `0`. -/
def convertInputToLbs (weight : Option ℚ) (unit : String) : ℚ :=
  match weight with
  | none => 0
  | some numWeight =>
      if unit = "kg" then numWeight / LBS_TO_KG_FACTOR else numWeight

/-- Embedding of `handleIncrement(amount)` from
`components/EditLiftModal.js`: the current field value is converted to
pounds, `amount` is added to that pound value, and the sum is converted back
to the display unit and formatted with `toFixed(1)`.  Returns the new field
value in the current unit. -/
def handleIncrement (editedWeight : Option ℚ) (unit : String) (amount : ℚ) : ℚ :=
  let currentLbs := convertInputToLbs editedWeight unit
  let newWeightLbs := currentLbs + amount
  if unit = "kg" then toFixed1 (newWeightLbs * LBS_TO_KG_FACTOR)
  else toFixed1 newWeightLbs

/-- Embedding of `handleDecrement(amount)` from
`components/EditLiftModal.js`: like `handleIncrement` but subtracting,
clamped at zero by `Math.max(0, ...)`. -/
def handleDecrement (editedWeight : Option ℚ) (unit : String) (amount : ℚ) : ℚ :=
  let currentLbs := convertInputToLbs editedWeight unit
  let newWeightLbs := max 0 (currentLbs - amount)
  if unit = "kg" then toFixed1 (newWeightLbs * LBS_TO_KG_FACTOR)
  else toFixed1 newWeightLbs

/-- The `incrementAmount` constant of `components/EditLiftModal.js`
line 114. -/
def incrementAmount (unit : String) : ℚ := if unit = "kg" then 5 / 2 else 5

/-- The `doubleIncrementAmount` constant of `components/EditLiftModal.js`
line 115. -/
def doubleIncrementAmount (unit : String) : ℚ := if unit = "kg" then 5 else 10

/-- The persistence decision made by `handleSave` in
`components/EditLiftModal.js`: the field value is converted to pounds; when
the result is not greater than zero the save is rejected with an alert and
`updateLift` is never called, otherwise `updateLift` receives exactly the
converted weight.  Returns the weight passed to `updateLift`, or `none` when
no persistence call is made.  The `isNaN` guard of the source can never fire
because `convertInputToLbs` maps an unparseable input to `0`. -/
def handleSaveWeight (input : Option ℚ) (unit : String) : Option ℚ :=
  let newMaxWeightInLbs := convertInputToLbs input unit
  if newMaxWeightInLbs ≤ 0 then none else some newMaxWeightInLbs

/-- The percentage shown in a working-set row of the `CalculateWeights`
component: `(setWeight / maxWeight * 100).toFixed(0)`, recomputed from the
current set weight and max weight every render. -/
def displayedPct (setWeight maxWeight : ℚ) : ℤ :=
  toFixed0 (setWeight / maxWeight * 100)

/-- The pounds-to-kilograms direction `toKg`, used by `convertWeight` in the
`CalculateWeights` component: multiply by `LBS_TO_KG_FACTOR`. -/
def toKg (lbs : ℚ) : ℚ := lbs * LBS_TO_KG_FACTOR

/-- The kilograms-to-pounds direction `toLbs`, used by `convertInputToLbs`
in `components/EditLiftModal.js`: divide by `LBS_TO_KG_FACTOR`. -/
def toLbs (kg : ℚ) : ℚ := kg / LBS_TO_KG_FACTOR

/-- A raw record of the in-memory mock store of
`src/services/mockLiftService.js`: `{ id, name, maxWeight, date }`. -/
structure LiftRecord where
  id : ℕ
  name : String
  maxWeight : ℚ
  date : String
  deriving DecidableEq, Repr

/-- Embedding of `updateLiftMaxWeight(liftId, newMaxWeight)` from
`src/services/mockLiftService.js`: `findIndex` locates the first record whose
`id` matches, its `maxWeight` field is assigned in place and the promise
resolves `true`; with no match the store is untouched and it resolves
`false`.  Modelled as a function from the store to the new store paired with
the resolved Boolean. -/
def updateLiftMaxWeight : List LiftRecord → ℕ → ℚ → List LiftRecord × Bool
  | [], _, _ => ([], false)
  | r :: rest, liftId, newMaxWeight =>
    if r.id = liftId then ({ r with maxWeight := newMaxWeight } :: rest, true)
    else
      let res := updateLiftMaxWeight rest liftId newMaxWeight
      (r :: res.1, res.2)

/-- The three seed records of `addInitialMockData` with a fixed date. -/
def demoStore : List LiftRecord :=
  [⟨1, "Squat", 225, "1/1/2025"⟩,
   ⟨2, "Bench Press", 185, "1/1/2025"⟩,
   ⟨3, "Deadlift", 315, "1/1/2025"⟩]

/-- Helper: `toFixed(1)` is the identity on values already on the
one-decimal grid. -/
lemma toFixed1_eq_self {q : ℚ} (hq : (q * 10).den = 1) : toFixed1 q = q := by
  have h1 : ((q * 10).num : ℚ) = q * 10 := (Rat.den_eq_one_iff _).mp hq
  unfold toFixed1
  rw [← h1, round_intCast, h1]
  ring

/-- Helper: `toFixed(1)` preserves nonnegativity. -/
lemma toFixed1_nonneg {q : ℚ} (hq : 0 ≤ q) : 0 ≤ toFixed1 q := by
  unfold toFixed1
  have hr : (0 : ℤ) ≤ round (q * 10) := by
    rw [round_eq]
    exact Int.floor_nonneg.mpr (by positivity)
  have : (0 : ℚ) ≤ (round (q * 10) : ℤ) := by exact_mod_cast hr
  positivity

/-- Helper: recomputing the displayed percentage from a stored weight of the
form `maxWeight * p / 100` returns `p` itself. -/
lemma displayedPct_of_table (mw : ℚ) (hmw : mw ≠ 0) (p : ℤ) (hp : 0 ≤ p) :
    displayedPct (mw * ((p : ℚ) / 100)) mw = p := by
  unfold displayedPct toFixed0
  have hx : mw * ((p : ℚ) / 100) / mw * 100 = (p : ℚ) := by
    field_simp
    ring
  rw [hx, if_neg (not_lt.mpr (by exact_mod_cast hp)), round_intCast]

/-- Helper: a `mapIdx` whose function fixes every element is the identity. -/
lemma mapIdx_id_of_eq (l : List LiftRecord) (f : ℕ → LiftRecord → LiftRecord)
    (h : ∀ i x, f i x = x) : l.mapIdx f = l := by
  induction l generalizing f with
  | nil => simp
  | cons a as ih =>
      rw [List.mapIdx_cons, h, ih]
      intro i x
      exact h (i + 1) x

/-- Claim C1: for every positive max weight, `workingSets` is present for the
four named cycles (and any other string), and its three weights are
`maxWeight * percentage / 100` for the documented table of that cycle, with
the paired rep counts. -/
theorem workingSets_match_table (mw : ℚ) (h : 0 < mw) :
    (calculateTrainingWeights mw "Deload").workingSets =
      some ⟨mw * (40 / 100), mw * (50 / 100), mw * (60 / 100), 5, 5, 3⟩ ∧
    (calculateTrainingWeights mw "5/5/5").workingSets =
      some ⟨mw * (65 / 100), mw * (75 / 100), mw * (85 / 100), 5, 5, 5⟩ ∧
    (calculateTrainingWeights mw "3/3/3").workingSets =
      some ⟨mw * (70 / 100), mw * (80 / 100), mw * (90 / 100), 3, 3, 3⟩ ∧
    (calculateTrainingWeights mw "5/3/1").workingSets =
      some ⟨mw * (75 / 100), mw * (85 / 100), mw * (95 / 100), 5, 3, 1⟩ ∧
    ∀ cycle : String, ((calculateTrainingWeights mw cycle).workingSets).isSome = true := by
  refine ⟨rfl, rfl, rfl, rfl, ?_⟩
  intro cycle
  unfold calculateTrainingWeights
  dsimp only
  by_cases h1 : cycle = "Deload" <;> by_cases h2 : cycle = "5/5/5" <;>
    by_cases h3 : cycle = "3/3/3" <;> by_cases h4 : cycle = "5/3/1" <;>
    simp [h1, h2, h3, h4]

/-- Witness for C1: scenario A of the spec, `maxWeight = 300`,
`cycle = 5/3/1`, yields working sets 225, 255, 285 with reps 5, 3, 1. -/
theorem workingSets_match_table_witness :
    0 < (300 : ℚ) ∧
    (calculateTrainingWeights 300 "5/3/1").workingSets =
      some ⟨300 * (75 / 100), 300 * (85 / 100), 300 * (95 / 100), 5, 3, 1⟩ :=
  ⟨by norm_num, (workingSets_match_table 300 (by norm_num)).2.2.2.1⟩

/-- Claim C2: for every positive max weight and every cycle string, the
warm-up block is absent exactly when the cycle is Deload, and whenever it is
present it holds the fixed tiers 40, 50, 60 percent of max with reps 5, 5, 3. -/
theorem warmUp_absent_iff_deload (mw : ℚ) (h : 0 < mw) (cycle : String) :
    ((calculateTrainingWeights mw cycle).warmUp = none ↔ cycle = "Deload") ∧
    ∀ w, (calculateTrainingWeights mw cycle).warmUp = some w →
      w = ⟨mw * (40 / 100), mw * (50 / 100), mw * (60 / 100), 5, 5, 3⟩ := by
  unfold calculateTrainingWeights
  dsimp only
  by_cases h1 : cycle = "Deload" <;> simp [h1]

/-- Witness for C2 at `maxWeight = 300`: warm-up is present for `5/3/1` and
holds 120, 150, 180 with reps 5, 5, 3; it is absent for Deload. -/
theorem warmUp_absent_iff_deload_witness :
    0 < (300 : ℚ) ∧
    (calculateTrainingWeights 300 "Deload").warmUp = none ∧
    ∀ w, (calculateTrainingWeights 300 "5/3/1").warmUp = some w →
      w = ⟨300 * (40 / 100), 300 * (50 / 100), 300 * (60 / 100), 5, 5, 3⟩ :=
  ⟨by norm_num,
   (warmUp_absent_iff_deload 300 (by norm_num) "Deload").1.mpr rfl,
   (warmUp_absent_iff_deload 300 (by norm_num) "5/3/1").2⟩

/-- Claim C3: an unrecognized cycle string behaves exactly like `5/3/1`:
the whole returned record (warm-up and working sets) coincides. -/
theorem unknown_cycle_defaults_to_531 (mw : ℚ) (h : 0 < mw) (cycle : String)
    (hd : cycle ≠ "Deload") (h5 : cycle ≠ "5/5/5")
    (h3 : cycle ≠ "3/3/3") (h1 : cycle ≠ "5/3/1") :
    calculateTrainingWeights mw cycle = calculateTrainingWeights mw "5/3/1" := by
  unfold calculateTrainingWeights
  simp [hd, h5, h3, h1]

/-- Witness for C3: scenario C of the spec, cycle string `foo` with
`maxWeight = 100` behaves exactly like `5/3/1`. -/
theorem unknown_cycle_defaults_to_531_witness :
    0 < (100 : ℚ) ∧
    calculateTrainingWeights 100 "foo" = calculateTrainingWeights 100 "5/3/1" :=
  ⟨by norm_num,
   unknown_cycle_defaults_to_531 100 (by norm_num) "foo"
     (by decide) (by decide) (by decide) (by decide)⟩

/-- Claim C4: for every positive max weight, the Deload working sets carry
exactly the weights and reps of the warm-up block produced by any non-Deload
cycle (40, 50, 60 percent with reps 5, 5, 3), while the Deload warm-up itself
is absent. -/
theorem deload_workingSets_eq_warmUp (mw : ℚ) (h : 0 < mw) (cycle : String)
    (hc : cycle ≠ "Deload") :
    ∃ w : WarmUp,
      (calculateTrainingWeights mw cycle).warmUp = some w ∧
      (calculateTrainingWeights mw "Deload").workingSets =
        some ⟨w.rpe40, w.rpe50, w.rpe60, w.reps40, w.reps50, w.reps60⟩ ∧
      (calculateTrainingWeights mw "Deload").warmUp = none := by
  refine ⟨⟨mw * (40 / 100), mw * (50 / 100), mw * (60 / 100), 5, 5, 3⟩, ?_, rfl, rfl⟩
  unfold calculateTrainingWeights
  simp [hc]

/-- Witness for C4: scenario B of the spec at `maxWeight = 300`, taking
`5/3/1` as the non-Deload cycle. -/
theorem deload_workingSets_eq_warmUp_witness :
    0 < (300 : ℚ) ∧
    ∃ w : WarmUp,
      (calculateTrainingWeights 300 "5/3/1").warmUp = some w ∧
      (calculateTrainingWeights 300 "Deload").workingSets =
        some ⟨w.rpe40, w.rpe50, w.rpe60, w.reps40, w.reps50, w.reps60⟩ ∧
      (calculateTrainingWeights 300 "Deload").warmUp = none :=
  ⟨by norm_num,
   deload_workingSets_eq_warmUp 300 (by norm_num) "5/3/1" (by decide)⟩

/-- Counterexample computation for claim C5: in kilogram mode, pressing the
small step button on a field showing 10.0 kg yields 11.1 kg, a change of
about 1.134 kg (the 2.5 "kg" step is added in pound space), not the 2.5 kg
change the spec and the code documentation promise.  In pound mode the step
does change the weight by exactly 5 lbs. -/
theorem kg_step_not_unit_aware :
    handleIncrement (some 10) "kg" (incrementAmount "kg") = 111 / 10 ∧
    (111 / 10 : ℚ) ≠ 10 + 5 / 2 ∧
    handleIncrement (some 10) "lbs" (incrementAmount "lbs") = 10 + 5 := by
  refine ⟨?_, by norm_num, ?_⟩ <;>
    · unfold handleIncrement convertInputToLbs incrementAmount toFixed1 LBS_TO_KG_FACTOR
      simp only [show ("lbs" = "kg") = False from by decide, if_false, if_true,
        show ("kg" = "kg") = True from by decide]
      norm_num [round_eq]

/-- Claim C6: in pounds, with field value and step amount on the one-decimal
grid the modal works with, a decrement produces exactly `max 0 (w - a)`; and
for every input, unit and amount a decrement is never negative. -/
theorem decrement_clamps_at_zero (w a : ℚ) (hw0 : 0 ≤ w)
    (hw : (w * 10).den = 1) (ha : (a * 10).den = 1) :
    handleDecrement (some w) "lbs" a = max 0 (w - a) ∧
    ∀ (x : Option ℚ) (unit : String) (b : ℚ), 0 ≤ handleDecrement x unit b := by
  constructor
  · have hmax : (max 0 (w - a) * 10).den = 1 := by
      rcases le_total (w - a) 0 with h | h
      · rw [max_eq_left h]
        simp
      · rw [max_eq_right h]
        have hw1 : ((w * 10).num : ℚ) = w * 10 := (Rat.den_eq_one_iff _).mp hw
        have ha1 : ((a * 10).num : ℚ) = a * 10 := (Rat.den_eq_one_iff _).mp ha
        have hcast : (w - a) * 10 = (((w * 10).num - (a * 10).num : ℤ) : ℚ) := by
          push_cast [hw1, ha1]
          ring
        rw [hcast]
        exact Rat.den_intCast _
    unfold handleDecrement convertInputToLbs
    simp only [show ("lbs" = "kg") = False from by decide, if_false]
    exact toFixed1_eq_self hmax
  · intro x unit b
    unfold handleDecrement
    by_cases h : unit = "kg"
    · rw [if_pos h]
      refine toFixed1_nonneg (mul_nonneg (le_max_left 0 _) ?_)
      unfold LBS_TO_KG_FACTOR
      norm_num
    · rw [if_neg h]
      exact toFixed1_nonneg (le_max_left 0 _)

/-- Witness for C6: the spec scenario, decrementing a field showing 3 lbs by
5 clamps to exactly 0. -/
theorem decrement_clamps_at_zero_witness :
    0 ≤ (3 : ℚ) ∧ ((3 : ℚ) * 10).den = 1 ∧ ((5 : ℚ) * 10).den = 1 ∧
    handleDecrement (some 3) "lbs" 5 = max 0 (3 - 5) :=
  ⟨by norm_num, by norm_num, by norm_num,
   (decrement_clamps_at_zero 3 5 (by norm_num) (by norm_num) (by norm_num)).1⟩

/-- Claim C7: the displayed percentage-of-max equals
`round(setWeight / maxWeight * 100)`; recomputing it from the weights that
`calculateTrainingWeights` produces for `5/3/1` returns the table values
75, 85, 95, and the spec example 170 of 200 displays 85. -/
theorem displayed_percentage_recomputed (mw : ℚ) (h : 0 < mw) :
    (∀ s : ℚ, 0 ≤ s → displayedPct s mw = round (s / mw * 100)) ∧
    (∀ ws : WorkSet, (calculateTrainingWeights mw "5/3/1").workingSets = some ws →
      displayedPct ws.repLift1 mw = 75 ∧ displayedPct ws.repLift2 mw = 85 ∧
      displayedPct ws.repLift3 mw = 95) ∧
    displayedPct 170 200 = 85 := by
  have hmw : mw ≠ 0 := ne_of_gt h
  refine ⟨?_, ?_, ?_⟩
  · intro s hs
    unfold displayedPct toFixed0
    rw [if_neg (not_lt.mpr (by positivity))]
  · intro ws hws
    have hval : (calculateTrainingWeights mw "5/3/1").workingSets =
        some ⟨mw * (75 / 100), mw * (85 / 100), mw * (95 / 100), 5, 3, 1⟩ := rfl
    rw [hval] at hws
    have hws2 := Option.some_inj.mp hws
    subst hws2
    refine ⟨?_, ?_, ?_⟩ <;> dsimp only <;>
      [simpa using displayedPct_of_table mw hmw 75 (by norm_num);
       simpa using displayedPct_of_table mw hmw 85 (by norm_num);
       simpa using displayedPct_of_table mw hmw 95 (by norm_num)]
  · have h170 : (170 : ℚ) = 200 * (((85 : ℤ) : ℚ) / 100) := by norm_num
    rw [h170]
    exact displayedPct_of_table 200 (by norm_num) 85 (by norm_num)

/-- Witness for C7: the spec example, max weight 200 and set weight 170
display 85 percent. -/
theorem displayed_percentage_recomputed_witness :
    0 < (200 : ℚ) ∧ displayedPct 170 200 = 85 :=
  ⟨by norm_num, (displayed_percentage_recomputed 200 (by norm_num)).2.2⟩

/-- Claim C8: the unit conversion round-trips.  Over exact rationals
`toLbs (toKg lbs)` equals `lbs` exactly (hence in particular within 1e-6),
and the actual modal function `convertInputToLbs` inverts `toKg` the same
way. -/
theorem unit_conversion_round_trip (lbs : ℚ) (h : 0 < lbs) :
    toLbs (toKg lbs) = lbs ∧
    |toLbs (toKg lbs) - lbs| ≤ 1 / 1000000 ∧
    convertInputToLbs (some (toKg lbs)) "kg" = lbs := by
  have hf : LBS_TO_KG_FACTOR ≠ 0 := by
    unfold LBS_TO_KG_FACTOR
    norm_num
  have h1 : toLbs (toKg lbs) = lbs := by
    unfold toLbs toKg
    field_simp
  refine ⟨h1, by rw [h1]; norm_num, ?_⟩
  unfold convertInputToLbs toKg
  dsimp only
  rw [if_pos rfl]
  field_simp

/-- Witness for C8 at `lbs = 300`. -/
theorem unit_conversion_round_trip_witness :
    0 < (300 : ℚ) ∧
    (toLbs (toKg 300) = 300 ∧
     |toLbs (toKg 300) - 300| ≤ 1 / 1000000 ∧
     convertInputToLbs (some (toKg 300)) "kg" = 300) :=
  ⟨by norm_num, unit_conversion_round_trip 300 (by norm_num)⟩

/-- Claim C9: an unparseable input converts to `0`, which makes `handleSave`
reject the save, and any weight that does reach `updateLift` is strictly
positive. -/
theorem invalid_input_never_persisted (unit : String) :
    convertInputToLbs none unit = 0 ∧
    handleSaveWeight none unit = none ∧
    ∀ (input : Option ℚ) (w : ℚ), handleSaveWeight input unit = some w → 0 < w := by
  refine ⟨rfl, ?_, ?_⟩
  · unfold handleSaveWeight convertInputToLbs
    simp
  · intro input w hw
    unfold handleSaveWeight at hw
    by_cases hle : convertInputToLbs input unit ≤ 0
    · rw [if_pos hle] at hw
      exact absurd hw (by simp)
    · rw [if_neg hle] at hw
      rw [← Option.some_inj.mp hw]
      exact not_le.mp hle

/-- Witness for C9: in pounds, the rejected empty parse and an accepted
input of 5 lbs. -/
theorem invalid_input_never_persisted_witness :
    convertInputToLbs none "lbs" = 0 ∧
    handleSaveWeight none "lbs" = none ∧
    (handleSaveWeight (some 5) "lbs" = some 5 ∧ 0 < (5 : ℚ)) :=
  ⟨(invalid_input_never_persisted "lbs").1,
   (invalid_input_never_persisted "lbs").2.1,
   by decide,
   (invalid_input_never_persisted "lbs").2.2 (some 5) 5 (by decide)⟩

/-- Claim C10: the mock update rewrites exactly the `maxWeight` field of the
record at the first index whose `id` matches (keeping `id`, `name` and
`date`, and every other record untouched), resolves `true` exactly when some
record matches, and leaves the store entirely unchanged when none does. -/
theorem updateLiftMaxWeight_frame (store : List LiftRecord) (liftId : ℕ) (w : ℚ) :
    (updateLiftMaxWeight store liftId w).1 =
      store.mapIdx (fun i r =>
        if i = store.findIdx (fun s => s.id == liftId) then { r with maxWeight := w }
        else r) ∧
    (updateLiftMaxWeight store liftId w).2 = store.any (fun s => s.id == liftId) ∧
    (store.any (fun s => s.id == liftId) = false →
      (updateLiftMaxWeight store liftId w).1 = store) := by
  induction store with
  | nil => exact ⟨rfl, rfl, fun _ => rfl⟩
  | cons r rest ih =>
      by_cases hid : r.id = liftId
      · have hp : (r.id == liftId) = true := beq_iff_eq.mpr hid
        refine ⟨?_, ?_, ?_⟩
        · rw [updateLiftMaxWeight, if_pos hid]
          rw [List.mapIdx_cons, List.findIdx_cons, hp]
          simp only [cond_true, if_pos rfl]
          rw [mapIdx_id_of_eq rest _ fun i x => if_neg (Nat.succ_ne_zero i)]
          simp only [if_true]
        · rw [updateLiftMaxWeight, if_pos hid, List.any_cons, hp]
          rfl
        · intro hnone
          rw [List.any_cons, hp] at hnone
          exact absurd hnone (by simp)
      · have hp : (r.id == liftId) = false := beq_eq_false_iff_ne.mpr hid
        refine ⟨?_, ?_, ?_⟩
        · rw [updateLiftMaxWeight, if_neg hid]
          dsimp only
          rw [List.mapIdx_cons, List.findIdx_cons, hp]
          simp only [cond_false, add_left_inj]
          rw [if_neg (Nat.succ_ne_zero _).symm, ih.1]
        · rw [updateLiftMaxWeight, if_neg hid, List.any_cons, hp]
          dsimp only
          rw [ih.2.1]
          rfl
        · intro hnone
          rw [List.any_cons, hp, Bool.false_or] at hnone
          rw [updateLiftMaxWeight, if_neg hid]
          dsimp only
          rw [ih.2.2 hnone]

/-- Witness for C10 on the seed data: updating an absent id 9 leaves the
store unchanged and updating id 2 resolves true. -/
theorem updateLiftMaxWeight_frame_witness :
    (updateLiftMaxWeight demoStore 9 200).1 = demoStore ∧
    (updateLiftMaxWeight demoStore 2 200).2 = true :=
  ⟨(updateLiftMaxWeight_frame demoStore 9 200).2.2 (by decide),
   ((updateLiftMaxWeight_frame demoStore 2 200).2.1).trans (by decide)⟩
